import Mathlib

/-!
Verification development for the nostros query-template translator.

The definitions below are a shallow embedding of the placeholder scanner,
the binding builder, the external-source pool provider and the render
orchestrator of the repository (src/main.py, src/src/database/postgres.py,
src/src/database/db.py, src/src/data_manipulation/main.py).  Strings are
Lean strings, Python dicts are insertion-ordered association lists, and
the two regular expressions of the scanner are embedded as deterministic
maximal-munch matchers (both patterns only ever follow a word-class or
digit-class group with a character outside that class, so the greedy
Python semantics never backtracks and maximal munch is exact).
-/

/-- Python word character class for an ASCII template string:
letters, digits and the underscore. -/
def isWordChar (c : Char) : Bool := c.isAlphanum || c == '_'

/-- Value of a decimal digit string, as computed by int() in Python. -/
def digitsToNat (ds : List Char) : Nat :=
  ds.foldl (fun n c => n * 10 + (c.toNat - 48)) 0

/-- Greedy match of one-or-more characters satisfying p; returns the
maximal run together with the remaining suffix, or none when the first
character already fails p. -/
def takeWhile1 (p : Char → Bool) : List Char → Option (List Char × List Char)
  | [] => none
  | c :: cs => if p c then some (c :: cs.takeWhile p, cs.dropWhile p) else none

/-- Strip an exact literal from the front of the input. -/
def stripLit : List Char → List Char → Option (List Char)
  | [], l => some l
  | _ :: _, [] => none
  | p :: ps, c :: cs => if c = p then stripLit ps cs else none

/-- Match of the bare placeholder regex of identify_required_args,
written in the source as a raw pattern with groups ARG-(word)(digits),
at the head of the input; returns (captured type, captured index) and the
suffix after the token. -/
def matchArgAt (l : List Char) : Option ((String × Nat) × List Char) :=
  match stripLit "<ARG-".data l with
  | none => none
  | some r1 =>
    match takeWhile1 isWordChar r1 with
    | none => none
    | some (ty, r2) =>
      match stripLit "><".data r2 with
      | none => none
      | some r3 =>
        match takeWhile1 Char.isDigit r3 with
        | none => none
        | some (ds, r4) =>
          match stripLit ">".data r4 with
          | none => none
          | some r5 => some ((ty.asString, digitsToNat ds), r5)

/-- Match of the template-qualified placeholder regex of
identify_required_args, with groups (word)-TEMPLATE, ARG-(word) and
(digits), at the head of the input; returns (strategy, type, index) and
the suffix after the token. -/
def matchTemplateAt (l : List Char) : Option ((String × String × Nat) × List Char) :=
  match stripLit "<".data l with
  | none => none
  | some r1 =>
    match takeWhile1 isWordChar r1 with
    | none => none
    | some (st, r2) =>
      match stripLit "-TEMPLATE><ARG-".data r2 with
      | none => none
      | some r3 =>
        match takeWhile1 isWordChar r3 with
        | none => none
        | some (ty, r4) =>
          match stripLit "><".data r4 with
          | none => none
          | some r5 =>
            match takeWhile1 Char.isDigit r5 with
            | none => none
            | some (ds, r6) =>
              match stripLit ">".data r6 with
              | none => none
              | some r7 => some ((st.asString, ty.asString, digitsToNat ds), r7)

/-- Scanning loop of re.findall for the bare pattern: at each position try
a match; on success record the groups and resume after the token, else
advance one character.  The fuel argument is initialised with the length
of the input; a successful match consumes at least one character, so the
fuel never runs out. -/
def findArgMatchesGo : Nat → List Char → List (String × Nat)
  | _, [] => []
  | 0, _ :: _ => []
  | fuel + 1, c :: cs =>
    match matchArgAt (c :: cs) with
    | some (m, rest) => m :: findArgMatchesGo fuel rest
    | none => findArgMatchesGo fuel cs

/-- Scanning loop of re.findall for the template-qualified pattern. -/
def findTemplateMatchesGo : Nat → List Char → List (String × String × Nat)
  | _, [] => []
  | 0, _ :: _ => []
  | fuel + 1, c :: cs =>
    match matchTemplateAt (c :: cs) with
    | some (m, rest) => m :: findTemplateMatchesGo fuel rest
    | none => findTemplateMatchesGo fuel cs

/-- All (type, index) captures of the bare placeholder pattern in a
character list, in scan order. -/
def findArgMatchesL (l : List Char) : List (String × Nat) :=
  findArgMatchesGo l.length l

/-- All (strategy, type, index) captures of the template-qualified
placeholder pattern in a character list, in scan order. -/
def findTemplateMatchesL (l : List Char) : List (String × String × Nat) :=
  findTemplateMatchesGo l.length l

/-- Lookup in an insertion-ordered association list, the dict access of
the Python source. -/
def alookup (k : String) : List (String × α) → Option α
  | [] => none
  | (k1, v) :: rest => if k1 = k then some v else alookup k rest

/-- One dict update step of identify_required_args: when the key is
absent insert it with the given value, otherwise replace the stored value
by the maximum of the old and new values (main.py lines 192 to 206). -/
def dictInsertOrMax (m : List (String × Nat)) (k : String) (v : Nat) : List (String × Nat) :=
  match alookup k m with
  | none => m ++ [(k, v)]
  | some _ => m.map (fun p => if p.1 = k then (p.1, max p.2 v) else p)

/-- Scanner of main.py and postgres.py: fold the template-qualified
findall results and then the bare findall results into the required
argument dict, each capture contributing its index plus one. -/
def identify_required_args (query : String) : List (String × Nat) :=
  let l := query.data
  let m1 := (findTemplateMatchesL l).foldl (fun m t => dictInsertOrMax m t.2.1 (t.2.2 + 1)) []
  (findArgMatchesL l).foldl (fun m t => dictInsertOrMax m t.1 (t.2 + 1)) m1

/-- One pool element, the Python dict with single key Query-arg holding a
string value. -/
structure QueryArg where
  query_arg : String
deriving DecidableEq, Repr

/-- Synthetic placeholder pool of create_args_dict_for_query for a type
with no pool entry: PLACEHOLDER_0 up to PLACEHOLDER_(count-1). -/
def placeholderArgs (count : Nat) : List QueryArg :=
  (List.range count).map (fun i => ⟨"PLACEHOLDER_" ++ toString i⟩)

/-- Python dict assignment on an association list: replace the value in
place when the key exists, else append the new entry. -/
def dictSet (m : List (String × α)) (k : String) (v : α) : List (String × α) :=
  match alookup k m with
  | none => m ++ [(k, v)]
  | some _ => m.map (fun p => if p.1 = k then (p.1, v) else p)

/-- Binding builder of main.py and postgres.py: for each (type, count) of
the scanner map, slice the first count elements of that type's pool when
the pool map has the type, else synthesize count placeholder values. -/
def create_args_dict_for_query (query : String)
    (sample_args : List (String × List QueryArg)) : List (String × List QueryArg) :=
  (identify_required_args query).foldl
    (fun qa p =>
      match alookup p.1 sample_args with
      | some pool => dictSet qa p.1 (pool.take p.2)
      | none => dictSet qa p.1 (placeholderArgs p.2))
    []

/-- One record appended by process_queries of main.py to its result list:
query id, original template, rendered text on success, error text on
failure, a status string, and the required-argument map recorded only on
success. -/
structure QueryResult where
  query_id : Nat
  original_template : String
  rendered_query : Option String
  error : Option String
  status : String
  required_args : Option (List (String × Nat))
deriving DecidableEq, Repr

/-- Loop body of process_queries of main.py, carrying the one-based query
id of the next template.  The external renderer is passed in as a
function returning an exception (Except.error) or the rendered text; the
try/except of the source catches the exception and records a failed
result, then continues with the remaining templates. -/
def process_queries_from
    (render : String → List (String × List QueryArg) → Except String String)
    (sample_args : List (String × List QueryArg)) :
    Nat → List String → List QueryResult
  | _, [] => []
  | qid, t :: ts =>
    let query_args := create_args_dict_for_query t sample_args
    let res :=
      match render t query_args with
      | Except.ok r => QueryResult.mk qid t (some r) none "success" (some (identify_required_args t))
      | Except.error e => QueryResult.mk qid t none (some e) "failed" none
    res :: process_queries_from render sample_args (qid + 1) ts

/-- Orchestrator loop of process_queries over a list of templates, query
ids starting at one as in the source (idx + 1 for idx from zero). -/
def process_queries
    (render : String → List (String × List QueryArg) → Except String String)
    (sample_args : List (String × List QueryArg))
    (templates : List String) : List QueryResult :=
  process_queries_from render sample_args 1 templates

/-- Python str.strip on a character list: drop whitespace from both
ends. -/
def pstrip (l : List Char) : List Char :=
  ((l.dropWhile Char.isWhitespace).reverse.dropWhile Char.isWhitespace).reverse

/-- Split a character list on newline characters. -/
def splitLines : List Char → List (List Char)
  | [] => [[]]
  | c :: cs =>
    match splitLines cs, c == '\n' with
    | r, true => [] :: r
    | [], false => [[c]]
    | h :: t, false => (c :: h) :: t

/-- Data rows that pandas read_csv extracts from the one-column CSV text
produced by SimpleOmopDB.run_query: every nonempty line after the header
line is one concept_code value (pandas skips blank lines). -/
def parseCsvCodes (csv : List Char) : List (List Char) :=
  ((splitLines csv).drop 1).filter (fun r => r ≠ [])

/-- External-source pool provider fetch_concepts_from_vocab of
postgres.py.  The outcome of db.run_query is passed in as an Except
value: Except.error is a raised exception (connectivity, SQL failure),
Except.ok carries the CSV text.  The source returns the single synthetic
pool PLACEHOLDER_(vocab id) when the call raised, when the stripped CSV
is empty or just the header word, or when the parsed frame has no row;
otherwise it returns the parsed codes. -/
def fetch_concepts_from_vocab (vocab_id : String)
    (dbResult : Except String (List Char)) : List QueryArg :=
  match dbResult with
  | Except.error _ => [⟨"PLACEHOLDER_" ++ vocab_id⟩]
  | Except.ok csv =>
    if pstrip csv = [] ∨ pstrip csv = "concept_code".data then
      [⟨"PLACEHOLDER_" ++ vocab_id⟩]
    else
      match parseCsvCodes csv with
      | [] => [⟨"PLACEHOLDER_" ++ vocab_id⟩]
      | codes => codes.map (fun c => ⟨c.asString⟩)

/-- Test on the run_query outcome: the call raised, or it returned CSV
text with no data row. -/
def fetchFailedOrEmpty (dbResult : Except String (List Char)) : Bool :=
  match dbResult with
  | Except.error _ => true
  | Except.ok csv => decide (parseCsvCodes csv = [])

/-- Modelled from the spec: the combinatorial binding mode of section 4.3
(build_binding_set), whose source file is not under src.  Each pool entry
pairs an argument type with its ordered value list; the result enumerates
the Cartesian product of the pools, each product tuple listed as one
binding assigning every type its chosen value. -/
def build_binding_set (pools : List (String × List String)) : List (List (String × String)) :=
  match pools with
  | [] => [[]]
  | (ty, vs) :: rest =>
    (vs.map (fun v => (build_binding_set rest).map (fun b => (ty, v) :: b))).flatten

/-- Modelled from the spec: substitution loop of the template renderer of
section 4.4 (render_template_query of sql_processing.py, not under src).
Scanning left to right, a template-qualified token is replaced by the
fragment produced by the type-specific rendering rule applied to the
bound value, a bare token is replaced by the bound value itself, and any
other character is copied; a missing binding or an unknown code makes the
render fail.  The fuel is initialised with the input length, which every
step strictly decreases at least as fast. -/
def renderGoF (rule : String → String → Option String)
    (b : String → Nat → Option String) : Nat → List Char → Except String (List Char)
  | _, [] => Except.ok []
  | 0, _ :: _ => Except.error "out of fuel"
  | fuel + 1, c :: cs =>
    match matchTemplateAt (c :: cs) with
    | some ((st, ty, i), rest) =>
      match b ty i with
      | none => Except.error ("unresolved argument " ++ ty)
      | some v =>
        match rule st v with
        | none => Except.error ("UnknownCode " ++ v)
        | some frag => (renderGoF rule b fuel rest).map (fun r => frag.data ++ r)
    | none =>
      match matchArgAt (c :: cs) with
      | some ((ty, i), rest) =>
        match b ty i with
        | none => Except.error ("unresolved argument " ++ ty)
        | some v => (renderGoF rule b fuel rest).map (fun r => v.data ++ r)
      | none => (renderGoF rule b fuel cs).map (fun r => c :: r)

/-- Modelled from the spec: the template renderer contract of section 4.4
with its post-condition, which classifies an output that still contains a
token of either placeholder grammar as a failure rather than returning
it. -/
def render_template (rule : String → String → Option String)
    (b : String → Nat → Option String) (t : String) : Except String String :=
  match renderGoF rule b t.data.length t.data with
  | Except.error e => Except.error e
  | Except.ok out =>
    if (findTemplateMatchesL out).isEmpty && (findArgMatchesL out).isEmpty then
      Except.ok out.asString
    else
      Except.error "UnresolvedToken"

/-- Indices at which a given argument type occurs in a capture list of
(type, index) pairs. -/
def indicesOf (k : String) (occs : List (String × Nat)) : List Nat :=
  occs.filterMap (fun p => if p.1 = k then some p.2 else none)

/-- All placeholder occurrences of a template under both grammars, as
(type, index) pairs: the template-qualified captures followed by the bare
captures, exactly the two findall passes of the scanner. -/
def allOccurrences (t : String) : List (String × Nat) :=
  (findTemplateMatchesL t.data).map (fun m => (m.2.1, m.2.2)) ++ findArgMatchesL t.data

/-- Value stored by create_args_dict_for_query for one required type: the
positional slice of the pool when the pool map has the type, else the
synthetic placeholder list. -/
def bindValue (sample_args : List (String × List QueryArg)) (ty : String) (count : Nat) :
    List QueryArg :=
  match alookup ty sample_args with
  | some pool => pool.take count
  | none => placeholderArgs count

/-- The result recorded by the orchestrator for one template, given its
one-based query id: the source catches any rendering exception and
records a failed result instead of propagating it. -/
def expectedResult (render : String → List (String × List QueryArg) → Except String String)
    (sample_args : List (String × List QueryArg)) (qid : Nat) (t : String) : QueryResult :=
  match render t (create_args_dict_for_query t sample_args) with
  | Except.ok r => QueryResult.mk qid t (some r) none "success" (some (identify_required_args t))
  | Except.error e => QueryResult.mk qid t none (some e) "failed" none

/-- Merge of a new count into an optional stored count, taking the
maximum when one is already stored. -/
def bump : Option Nat → Nat → Option Nat
  | none, v => some v
  | some w, v => some (max w v)

/-- Fixture template with two distinct STATE indices, used to exercise a
pool shorter than the required count. -/
def shortPoolTemplate : String := "SELECT p FROM t WHERE a = <ARG-STATE><0> AND b = <ARG-STATE><1>"

/-- Fixture pool map whose STATE pool has a single element. -/
def shortPoolArgs : List (String × List QueryArg) := [("STATE", [⟨"CA"⟩])]

/-- Fixture template with one STATE placeholder. -/
def onePlaceholderTemplate : String := "SELECT p FROM t WHERE a = <ARG-STATE><0>"

/-- Fixture pool map whose STATE pool is present but is the empty
sequence. -/
def emptyPoolArgs : List (String × List QueryArg) := [("STATE", [])]

/-- Fixture template list for the orchestrator: one renderable template
followed by one the fixture renderer rejects. -/
def fixtureTemplates : List String :=
  ["SELECT g FROM p WHERE x = <ARG-GENDER><0>", "BROKEN TEMPLATE"]

/-- Fixture renderer that fails on the second fixture template. -/
def fixtureRender : String → List (String × List QueryArg) → Except String String :=
  fun t _ => if t = "BROKEN TEMPLATE" then Except.error "boom" else Except.ok "SELECT 1"

/-- Fixture pool map for the orchestrator fixture run. -/
def fixturePools : List (String × List QueryArg) := [("GENDER", [⟨"FEMALE"⟩, ⟨"MALE"⟩])]

/-- Fixture rendering rule for the renderer idempotence witness. -/
def fixtureRule : String → String → Option String :=
  fun st v => some ("SELECT c FROM " ++ st ++ " WHERE code = " ++ v)

/-- Fixture binding for the renderer idempotence witness. -/
def fixtureBinding : String → Nat → Option String :=
  fun ty i => if ty = "GENDER" ∧ i = 0 then some "FEMALE" else none

/-! ### Association list lemmas -/

theorem alookup_append_single_self {α : Type} (k : String) (v : α)
    (m : List (String × α)) (h : alookup k m = none) :
    alookup k (m ++ [(k, v)]) = some v := by
  induction m with
  | nil => simp [alookup]
  | cons p rest ih =>
    obtain ⟨k1, w⟩ := p
    by_cases hk : k1 = k
    · simp [alookup, hk] at h
    · simp only [List.cons_append, alookup, if_neg hk] at h ⊢
      exact ih h

theorem alookup_append_single_ne {α : Type} (k k1 : String) (v : α)
    (m : List (String × α)) (h : k1 ≠ k) :
    alookup k (m ++ [(k1, v)]) = alookup k m := by
  induction m with
  | nil => simp [alookup, h]
  | cons p rest ih =>
    obtain ⟨k2, w⟩ := p
    by_cases hk : k2 = k
    · simp [alookup, hk]
    · simp only [List.cons_append, alookup, if_neg hk]
      exact ih

theorem alookup_replace_self {α : Type} (k : String) (f : α → α)
    (m : List (String × α)) :
    alookup k (m.map (fun p => if p.1 = k then (p.1, f p.2) else p)) =
      (alookup k m).map f := by
  induction m with
  | nil => rfl
  | cons p rest ih =>
    obtain ⟨k1, w⟩ := p
    simp only [List.map_cons]
    by_cases hk : k1 = k
    · have he : (if (k1, w).1 = k then ((k1, w).1, f (k1, w).2) else (k1, w)) = (k1, f w) := by
        simp [hk]
      rw [he]
      simp only [alookup, if_pos hk]
      rfl
    · have he : (if (k1, w).1 = k then ((k1, w).1, f (k1, w).2) else (k1, w)) = (k1, w) := by
        simp [hk]
      rw [he]
      simp only [alookup, if_neg hk]
      exact ih

theorem alookup_replace_ne {α : Type} (k k1 : String) (f : α → α)
    (m : List (String × α)) (h : k1 ≠ k) :
    alookup k (m.map (fun p => if p.1 = k1 then (p.1, f p.2) else p)) =
      alookup k m := by
  induction m with
  | nil => rfl
  | cons p rest ih =>
    obtain ⟨k2, w⟩ := p
    simp only [List.map_cons]
    by_cases hk : k2 = k1
    · have he : (if (k2, w).1 = k1 then ((k2, w).1, f (k2, w).2) else (k2, w)) = (k2, f w) := by
        simp [hk]
      rw [he]
      have hk2 : k2 ≠ k := by
        rw [hk]; exact h
      simp only [alookup, if_neg hk2]
      exact ih
    · have he : (if (k2, w).1 = k1 then ((k2, w).1, f (k2, w).2) else (k2, w)) = (k2, w) := by
        simp [hk]
      rw [he]
      by_cases hk2 : k2 = k
      · simp only [alookup, if_pos hk2]
      · simp only [alookup, if_neg hk2]
        exact ih

theorem alookup_insertOrMax_self (k : String) (v : Nat) (m : List (String × Nat)) :
    alookup k (dictInsertOrMax m k v) = bump (alookup k m) v := by
  unfold dictInsertOrMax
  cases h : alookup k m with
  | none => rw [alookup_append_single_self k v m h, bump]
  | some w =>
    have := alookup_replace_self k (fun x => max x v) m
    rw [h] at this
    simpa [bump] using this

theorem alookup_insertOrMax_ne (k k1 : String) (v : Nat) (m : List (String × Nat))
    (h : k1 ≠ k) :
    alookup k (dictInsertOrMax m k1 v) = alookup k m := by
  unfold dictInsertOrMax
  cases alookup k1 m with
  | none => exact alookup_append_single_ne k k1 v m h
  | some w => exact alookup_replace_ne k k1 (fun x => max x v) m h

theorem alookup_dictSet_self {α : Type} (k : String) (v : α) (m : List (String × α)) :
    alookup k (dictSet m k v) = some v := by
  unfold dictSet
  cases h : alookup k m with
  | none => exact alookup_append_single_self k v m h
  | some w =>
    have := alookup_replace_self k (fun _ => v) m
    rw [h] at this
    simpa using this

theorem alookup_dictSet_ne {α : Type} (k k1 : String) (v : α) (m : List (String × α))
    (h : k1 ≠ k) :
    alookup k (dictSet m k1 v) = alookup k m := by
  unfold dictSet
  cases alookup k1 m with
  | none => exact alookup_append_single_ne k k1 v m h
  | some w => exact alookup_replace_ne k k1 (fun _ => v) m h

/-! ### Scanner fold characterization -/

theorem indicesOf_cons (k k1 : String) (i : Nat) (rest : List (String × Nat)) :
    indicesOf k ((k1, i) :: rest) =
      if k1 = k then i :: indicesOf k rest else indicesOf k rest := by
  by_cases h : k1 = k <;> simp [indicesOf, h]

theorem alookup_scan_fold (occs : List (String × Nat)) :
    ∀ (m : List (String × Nat)) (k : String),
      alookup k (occs.foldl (fun m p => dictInsertOrMax m p.1 (p.2 + 1)) m) =
        (indicesOf k occs).foldl (fun o i => bump o (i + 1)) (alookup k m) := by
  induction occs with
  | nil => intro m k; rfl
  | cons p rest ih =>
    intro m k
    obtain ⟨k1, i⟩ := p
    rw [List.foldl_cons, ih, indicesOf_cons]
    by_cases h : k1 = k
    · subst h
      rw [if_pos rfl, List.foldl_cons, alookup_insertOrMax_self]
    · rw [if_neg h, alookup_insertOrMax_ne k k1 (i + 1) m h]

theorem identify_eq_fold (t : String) :
    identify_required_args t =
      (allOccurrences t).foldl (fun m p => dictInsertOrMax m p.1 (p.2 + 1)) [] := by
  unfold identify_required_args allOccurrences
  rw [List.foldl_append, List.foldl_map]

theorem bump_fold_some (is : List Nat) :
    ∀ i : Nat, is.foldl (fun o j => bump o (j + 1)) (some (i + 1)) =
      some (is.foldl max i + 1) := by
  induction is with
  | nil => intro i; rfl
  | cons j js ih =>
    intro i
    rw [List.foldl_cons, List.foldl_cons]
    have hm : max (i + 1) (j + 1) = max i j + 1 := by omega
    have hb : bump (some (i + 1)) (j + 1) = some (max i j + 1) := by
      rw [show bump (some (i + 1)) (j + 1) = some (max (i + 1) (j + 1)) from rfl, hm]
    rw [hb, ih]

/-! ### Binding builder characterization -/

theorem alookup_none_iff {α : Type} (k : String) (m : List (String × α)) :
    alookup k m = none ↔ k ∉ m.map Prod.fst := by
  induction m with
  | nil => simp [alookup]
  | cons p rest ih =>
    obtain ⟨k1, w⟩ := p
    by_cases hk : k1 = k
    · simp [alookup, hk]
    · simp only [alookup, if_neg hk, List.map_cons, List.mem_cons]
      rw [ih]
      constructor
      · intro h hc
        rcases hc with hc | hc
        · exact hk hc.symm
        · exact h hc
      · intro h hc
        exact h (Or.inr hc)

theorem keys_insertOrMax (k : String) (v : Nat) (m : List (String × Nat)) :
    (dictInsertOrMax m k v).map Prod.fst =
      if alookup k m = none then m.map Prod.fst ++ [k] else m.map Prod.fst := by
  unfold dictInsertOrMax
  cases h : alookup k m with
  | none => simp
  | some w =>
    rw [if_neg (Option.some_ne_none w)]
    rw [List.map_map]
    apply List.map_congr_left
    intro p _
    by_cases hp : p.1 = k <;> simp [hp]

theorem nodup_keys_insertOrMax (k : String) (v : Nat) (m : List (String × Nat))
    (h : (m.map Prod.fst).Nodup) : ((dictInsertOrMax m k v).map Prod.fst).Nodup := by
  rw [keys_insertOrMax]
  by_cases hn : alookup k m = none
  · rw [if_pos hn]
    rw [alookup_none_iff] at hn
    simp only [List.nodup_append, List.nodup_cons, List.not_mem_nil, not_false_iff,
      List.nodup_nil, and_true, true_and]
    constructor
    · exact h
    · intro a ha hb
      rcases List.mem_singleton.mp hb with rfl
      exact hn ha
  · rw [if_neg hn]
    exact h

theorem nodup_keys_scan_fold (occs : List (String × Nat)) :
    ∀ m : List (String × Nat), (m.map Prod.fst).Nodup →
      ((occs.foldl (fun m p => dictInsertOrMax m p.1 (p.2 + 1)) m).map Prod.fst).Nodup := by
  induction occs with
  | nil => intro m h; exact h
  | cons p rest ih =>
    intro m h
    rw [List.foldl_cons]
    exact ih _ (nodup_keys_insertOrMax p.1 (p.2 + 1) m h)

theorem nodup_keys_identify (t : String) :
    ((identify_required_args t).map Prod.fst).Nodup := by
  rw [identify_eq_fold]
  exact nodup_keys_scan_fold (allOccurrences t) [] List.nodup_nil

theorem create_eq_fold (q : String) (s : List (String × List QueryArg)) :
    create_args_dict_for_query q s =
      (identify_required_args q).foldl (fun qa p => dictSet qa p.1 (bindValue s p.1 p.2)) [] := by
  unfold create_args_dict_for_query
  congr 1
  funext qa p
  unfold bindValue
  cases alookup p.1 s <;> rfl

theorem alookup_dict_fold_not_mem {β γ : Type} (g : String → γ → β)
    (req : List (String × γ)) :
    ∀ (acc : List (String × β)) (k : String), k ∉ req.map Prod.fst →
      alookup k (req.foldl (fun qa p => dictSet qa p.1 (g p.1 p.2)) acc) = alookup k acc := by
  induction req with
  | nil => intro acc k _; rfl
  | cons p rest ih =>
    intro acc k hk
    obtain ⟨k1, c1⟩ := p
    simp only [List.map_cons, List.mem_cons, not_or] at hk
    rw [List.foldl_cons, ih _ k hk.2]
    exact alookup_dictSet_ne k k1 (g k1 c1) acc (fun h => hk.1 h.symm)

theorem alookup_dict_fold_mem {β γ : Type} (g : String → γ → β)
    (req : List (String × γ)) :
    ∀ (acc : List (String × β)) (k : String) (c : γ),
      (req.map Prod.fst).Nodup → alookup k req = some c →
      alookup k (req.foldl (fun qa p => dictSet qa p.1 (g p.1 p.2)) acc) = some (g k c) := by
  induction req with
  | nil => intro acc k c _ h; simp [alookup] at h
  | cons p rest ih =>
    intro acc k c hnd h
    obtain ⟨k1, c1⟩ := p
    simp only [List.map_cons, List.nodup_cons] at hnd
    rw [List.foldl_cons]
    by_cases hk : k1 = k
    · subst hk
      simp [alookup] at h
      subst h
      rw [alookup_dict_fold_not_mem g rest _ k1 hnd.1]
      exact alookup_dictSet_self k1 (g k1 c1) acc
    · simp only [alookup, if_neg hk] at h
      exact ih _ k c hnd.2 h

/-- Per-type characterization of the binding builder, shared by several
claims: a required type is bound to its bindValue, a type that is not
required has no entry. -/
theorem create_lookup_characterization (q : String) (s : List (String × List QueryArg))
    (k : String) :
    alookup k (create_args_dict_for_query q s) =
      (alookup k (identify_required_args q)).map (bindValue s k) := by
  rw [create_eq_fold]
  cases h : alookup k (identify_required_args q) with
  | none =>
    rw [alookup_none_iff] at h
    rw [alookup_dict_fold_not_mem _ _ _ _ h]
    rfl
  | some c =>
    rw [alookup_dict_fold_mem _ _ _ _ _ (nodup_keys_identify q) h]
    rfl

/-! ### Orchestrator characterization -/

theorem process_from_length
    (render : String → List (String × List QueryArg) → Except String String)
    (sample_args : List (String × List QueryArg)) :
    ∀ (ts : List String) (qid : Nat),
      (process_queries_from render sample_args qid ts).length = ts.length := by
  intro ts
  induction ts with
  | nil => intro qid; rfl
  | cons t rest ih =>
    intro qid
    simp only [process_queries_from, List.length_cons, ih]

theorem process_from_get
    (render : String → List (String × List QueryArg) → Except String String)
    (sample_args : List (String × List QueryArg)) :
    ∀ (ts : List String) (qid i : Nat) (t : String), ts.get? i = some t →
      (process_queries_from render sample_args qid ts).get? i =
        some (expectedResult render sample_args (qid + i) t) := by
  intro ts
  induction ts with
  | nil => intro qid i t h; simp at h
  | cons t0 rest ih =>
    intro qid i t h
    cases i with
    | zero =>
      simp only [List.get?] at h
      cases h
      simp only [process_queries_from, List.get?, Nat.add_zero]
      rfl
    | succ j =>
      simp only [List.get?] at h
      have := ih (qid + 1) j t h
      simp only [process_queries_from, List.get?]
      rw [this, show qid + 1 + j = qid + (j + 1) from by omega]

/-! ### Combinatorial mode lemmas -/

theorem flatten_map_length {α β γ : Type} (g : α → β → γ) (S : List β) :
    ∀ vs : List α, ((vs.map (fun v => S.map (g v))).flatten).length = vs.length * S.length := by
  intro vs
  induction vs with
  | nil => simp
  | cons v rest ih =>
    simp only [List.map_cons, List.flatten_cons, List.length_append, List.length_map, ih,
      List.length_cons]
    rw [Nat.succ_mul, Nat.add_comm]

theorem build_binding_set_length (pools : List (String × List String)) :
    (build_binding_set pools).length = (pools.map (fun p => p.2.length)).prod := by
  induction pools with
  | nil => rfl
  | cons p rest ih =>
    obtain ⟨ty, vs⟩ := p
    simp only [build_binding_set, List.map_cons, List.prod_cons]
    rw [flatten_map_length, ih]

theorem build_binding_set_mem (pools : List (String × List String)) :
    ∀ b : List (String × String), b ∈ build_binding_set pools ↔
      List.Forall₂ (fun (e : String × String) (p : String × List String) =>
        e.1 = p.1 ∧ e.2 ∈ p.2) b pools := by
  induction pools with
  | nil =>
    intro b
    simp only [build_binding_set, List.mem_singleton, List.forall₂_nil_right_iff]
  | cons p rest ih =>
    intro b
    obtain ⟨ty, vs⟩ := p
    simp only [build_binding_set]
    constructor
    · intro hb
      simp only [List.mem_flatten, List.mem_map] at hb
      obtain ⟨l, ⟨v, hv, rfl⟩, hbl⟩ := hb
      simp only [List.mem_map] at hbl
      obtain ⟨b0, hb0, rfl⟩ := hbl
      exact List.Forall₂.cons ⟨rfl, hv⟩ ((ih b0).mp hb0)
    · intro hf
      cases hf with
      | cons he ht =>
        rename_i e b0
        obtain ⟨e1, e2⟩ := e
        obtain ⟨h1, h2⟩ := he
        simp only at h1
        subst h1
        simp only [List.mem_flatten, List.mem_map]
        refine ⟨(build_binding_set rest).map (fun b1 => (e1, e2) :: b1), ⟨e2, h2, rfl⟩, ?_⟩
        exact List.mem_map.mpr ⟨b0, (ih b0).mpr ht, rfl⟩

/-! ### Renderer lemmas -/

theorem renderGo_no_tokens (rule : String → String → Option String)
    (b : String → Nat → Option String) :
    ∀ l : List Char, findTemplateMatchesGo l.length l = [] →
      findArgMatchesGo l.length l = [] →
      renderGoF rule b l.length l = Except.ok l := by
  intro l
  induction l with
  | nil => intro _ _; rfl
  | cons c cs ih =>
    intro h1 h2
    rw [List.length_cons] at h1 h2 ⊢
    cases hm1 : matchTemplateAt (c :: cs) with
    | some m =>
      rw [findTemplateMatchesGo, hm1] at h1
      exact absurd h1 (List.cons_ne_nil _ _)
    | none =>
      rw [findTemplateMatchesGo, hm1] at h1
      cases hm2 : matchArgAt (c :: cs) with
      | some m =>
        rw [findArgMatchesGo, hm2] at h2
        exact absurd h2 (List.cons_ne_nil _ _)
      | none =>
        rw [findArgMatchesGo, hm2] at h2
        rw [renderGoF, hm1, hm2, ih h1 h2]
        rfl

/-- Full characterization of the scanner map shared by several claims:
the stored count of a type is the successor of the maximum index over all
occurrences of that type under both grammars, and a type with no
occurrence has no entry. -/
theorem scan_lookup_characterization (t : String) (k : String) :
    alookup k (identify_required_args t) =
      match indicesOf k (allOccurrences t) with
      | [] => none
      | i :: is => some (is.foldl max i + 1) := by
  rw [identify_eq_fold, alookup_scan_fold]
  have hnil : alookup k ([] : List (String × Nat)) = none := rfl
  rw [hnil]
  cases indicesOf k (allOccurrences t) with
  | nil => rfl
  | cons i is =>
    rw [List.foldl_cons]
    exact bump_fold_some is i

/-! ### Claim theorems -/

/-- C1: for every template and every argument type, the scanner's entry
for the type equals one plus the maximum index of that type appearing
anywhere in the template under either placeholder grammar, occurrences
of both grammars merged under a single entry; a type with no occurrence
has no entry in the map. -/
theorem scan_count_is_succ_max_index (t X : String) :
    alookup X (identify_required_args t) =
      match indicesOf X (allOccurrences t) with
      | [] => none
      | i :: is => some (is.foldl max i + 1) :=
  scan_lookup_characterization t X

/-- C2 counterexample: the template requires two STATE values but the
one-element STATE pool yields a binding of length one; the binding is not
padded to the required count, refuting the claim as stated. -/
theorem short_pool_not_padded :
    ¬ (∀ (X : String) (count : Nat) (pool : List QueryArg),
        alookup X (identify_required_args shortPoolTemplate) = some count →
        alookup X shortPoolArgs = some pool →
        ∃ l, alookup X (create_args_dict_for_query shortPoolTemplate shortPoolArgs) = some l ∧
          l.length = count) := by
  intro h
  obtain ⟨l, hl, hlen⟩ := h "STATE" 2 [⟨"CA"⟩] (by decide) (by decide)
  have hv : alookup "STATE" (create_args_dict_for_query shortPoolTemplate shortPoolArgs) =
      some [(⟨"CA"⟩ : QueryArg)] := by decide
  rw [hv] at hl
  cases hl
  exact absurd hlen (by decide)

/-- C2 (amended): in positional mode a required type present in the pool
map is bound to the first min(count, pool length) elements of its pool in
order, pool position i serving placeholder index i; a pool shorter than
the required count is truncated to its own length, not padded, and the
builder itself never fails. -/
theorem binding_takes_pool_slice (t : String) (pools : List (String × List QueryArg))
    (X : String) (count : Nat) (pool : List QueryArg)
    (hreq : alookup X (identify_required_args t) = some count)
    (hpool : alookup X pools = some pool) :
    alookup X (create_args_dict_for_query t pools) = some (pool.take count) := by
  rw [create_lookup_characterization, hreq]
  show some (bindValue pools X count) = some (pool.take count)
  unfold bindValue
  rw [hpool]

/-- C2 witness: the short-pool fixture is bound to the take of its pool. -/
theorem binding_takes_pool_slice_witness :
    alookup "STATE" (create_args_dict_for_query shortPoolTemplate shortPoolArgs) =
      some [⟨"CA"⟩] :=
  binding_takes_pool_slice shortPoolTemplate shortPoolArgs "STATE" 2 [⟨"CA"⟩]
    (by decide) (by decide)

/-- C3 counterexample: with a present but empty STATE pool and required
count one, the binding for STATE is the empty list rather than one
synthetic value, refuting the claim as stated. -/
theorem empty_pool_no_synthetic :
    ¬ (∀ (X : String) (c : Nat),
        alookup X emptyPoolArgs = some [] →
        alookup X (identify_required_args onePlaceholderTemplate) = some c →
        ∃ l, alookup X (create_args_dict_for_query onePlaceholderTemplate emptyPoolArgs) =
            some l ∧ l.length = c ∧ l.Nodup) := by
  intro h
  obtain ⟨l, hl, hlen, _⟩ := h "STATE" 1 (by decide) (by decide)
  have hv : alookup "STATE" (create_args_dict_for_query onePlaceholderTemplate emptyPoolArgs) =
      some ([] : List QueryArg) := by decide
  rw [hv] at hl
  cases hl
  exact absurd hlen (by decide)

/-- C3 (amended): a required type whose pool entry is the empty sequence
is deterministically bound to the empty list; no synthetic values are
generated for a present but empty pool (they arise only when the type has
no pool entry at all). -/
theorem empty_pool_empty_binding (t : String) (pools : List (String × List QueryArg))
    (X : String) (count : Nat)
    (hpool : alookup X pools = some [])
    (hreq : alookup X (identify_required_args t) = some count) :
    alookup X (create_args_dict_for_query t pools) = some [] := by
  rw [create_lookup_characterization, hreq]
  show some (bindValue pools X count) = some []
  unfold bindValue
  rw [hpool]
  show some (List.take count ([] : List QueryArg)) = some []
  rw [List.take_nil]

/-- C3 witness: the empty-pool fixture is bound to the empty list. -/
theorem empty_pool_empty_binding_witness :
    alookup "STATE" (create_args_dict_for_query onePlaceholderTemplate emptyPoolArgs) =
      some [] :=
  empty_pool_empty_binding onePlaceholderTemplate emptyPoolArgs "STATE" 1
    (by decide) (by decide)

/-- C4: a required type with no entry at all in the pool map is bound to
exactly the count synthetic values PLACEHOLDER_0 .. PLACEHOLDER_(count-1);
the binding builder is a total function, so only the printed warning and
never an error reaches the caller. -/
theorem missing_pool_synthesized (t : String) (pools : List (String × List QueryArg))
    (X : String) (c : Nat)
    (hpool : alookup X pools = none)
    (hreq : alookup X (identify_required_args t) = some c) :
    alookup X (create_args_dict_for_query t pools) = some (placeholderArgs c) ∧
      (placeholderArgs c).length = c := by
  refine ⟨?_, by simp [placeholderArgs]⟩
  rw [create_lookup_characterization, hreq]
  show some (bindValue pools X c) = some (placeholderArgs c)
  unfold bindValue
  rw [hpool]

/-- C4 witness: with an empty pool map the one required STATE value is
synthesized as PLACEHOLDER_0. -/
theorem missing_pool_synthesized_witness :
    alookup "STATE" (create_args_dict_for_query onePlaceholderTemplate []) =
      some (placeholderArgs 1) ∧ (placeholderArgs 1).length = 1 :=
  missing_pool_synthesized onePlaceholderTemplate [] "STATE" 1 (by decide) (by decide)

/-- C5: when the run_query call raised, or returned a result set with no
data row, the external-source provider returns a pool of exactly one
synthetic placeholder value deterministically named from the vocabulary
id; the provider is total and its pool is never empty, so no exception
propagates and downstream slicing always has something to bind. -/
theorem fetch_fallback_single_placeholder (vocab_id : String)
    (dbResult : Except String (List Char))
    (h : fetchFailedOrEmpty dbResult = true) :
    fetch_concepts_from_vocab vocab_id dbResult = [⟨"PLACEHOLDER_" ++ vocab_id⟩] ∧
      ∀ r : Except String (List Char), fetch_concepts_from_vocab vocab_id r ≠ [] := by
  constructor
  · cases dbResult with
    | error e => rfl
    | ok csv =>
      have hp : parseCsvCodes csv = [] := by simpa [fetchFailedOrEmpty] using h
      simp only [fetch_concepts_from_vocab]
      by_cases hc : pstrip csv = [] ∨ pstrip csv = "concept_code".data
      · rw [if_pos hc]
      · rw [if_neg hc, hp]
  · intro r
    cases r with
    | error e => simp [fetch_concepts_from_vocab]
    | ok csv =>
      simp only [fetch_concepts_from_vocab]
      by_cases hc : pstrip csv = [] ∨ pstrip csv = "concept_code".data
      · rw [if_pos hc]
        simp
      · rw [if_neg hc]
        cases hcodes : parseCsvCodes csv with
        | nil => simp
        | cons a as => simp

/-- C5 witness: a raised connection error yields the one synthetic
RxNorm placeholder pool. -/
theorem fetch_fallback_single_placeholder_witness :
    fetch_concepts_from_vocab "RxNorm" (Except.error "connection refused") =
      [⟨"PLACEHOLDER_" ++ "RxNorm"⟩] :=
  (fetch_fallback_single_placeholder "RxNorm" (Except.error "connection refused") (by decide)).1

/-- C6: the orchestrator records exactly one result per template whether
its render succeeds or fails, a failure is recorded for that template
only and never aborts the remaining templates, and the results preserve
the input template order with one-based query ids. -/
theorem orchestrator_one_result_per_template
    (render : String → List (String × List QueryArg) → Except String String)
    (sample_args : List (String × List QueryArg)) (templates : List String) :
    (process_queries render sample_args templates).length = templates.length ∧
    ∀ i t, templates.get? i = some t →
      (process_queries render sample_args templates).get? i =
        some (expectedResult render sample_args (i + 1) t) := by
  constructor
  · exact process_from_length render sample_args templates 1
  · intro i t h
    have hg := process_from_get render sample_args templates 1 i t h
    rw [show 1 + i = i + 1 from by omega] at hg
    exact hg

/-- C6 witness: in the fixture run the second template fails to render
and is recorded as a failed result in second position while the first
template is unaffected. -/
theorem orchestrator_one_result_per_template_witness :
    (process_queries fixtureRender fixturePools fixtureTemplates).get? 1 =
      some (QueryResult.mk 2 "BROKEN TEMPLATE" none (some "boom") "failed" none) := by
  have h := (orchestrator_one_result_per_template fixtureRender fixturePools
    fixtureTemplates).2 1 "BROKEN TEMPLATE" (by rfl)
  rw [h]
  decide

/-- C7: in combinatorial mode the binding set is exactly the Cartesian
product of the pools' values, one binding per product tuple assigning
each type a value of its pool, and its size is exactly the product of
the pool sizes. -/
theorem binding_set_cartesian_product (pools : List (String × List String)) :
    (build_binding_set pools).length = (pools.map (fun p => p.2.length)).prod ∧
    ∀ b, b ∈ build_binding_set pools ↔
      List.Forall₂ (fun (e : String × String) (p : String × List String) =>
        e.1 = p.1 ∧ e.2 ∈ p.2) b pools :=
  ⟨build_binding_set_length pools, build_binding_set_mem pools⟩

/-- C8: rendering is idempotent: a successful render output contains no
matching token (renderer post-condition), and rendering a string with no
matching token returns it unchanged, so rendering a successful output
again under the same binding reproduces it exactly. -/
theorem render_idempotent (rule : String → String → Option String)
    (b : String → Nat → Option String) (t s : String)
    (h : render_template rule b t = Except.ok s) :
    render_template rule b s = Except.ok s := by
  unfold render_template at h ⊢
  cases hg : renderGoF rule b t.data.length t.data with
  | error e => rw [hg] at h; cases h
  | ok out =>
    rw [hg] at h
    have hif : (if ((findTemplateMatchesL out).isEmpty && (findArgMatchesL out).isEmpty) = true
        then Except.ok out.asString else Except.error "UnresolvedToken") = Except.ok s := h
    by_cases hb : ((findTemplateMatchesL out).isEmpty && (findArgMatchesL out).isEmpty) = true
    · rw [if_pos hb] at hif
      cases hif
      have hpair := hb
      rw [Bool.and_eq_true] at hpair
      have h1 : findTemplateMatchesL out = [] := by simpa using hpair.1
      have h2 : findArgMatchesL out = [] := by simpa using hpair.2
      have hr : renderGoF rule b out.length out = Except.ok out :=
        renderGo_no_tokens rule b out h1 h2
      show (match renderGoF rule b out.length out with
        | Except.error e => Except.error e
        | Except.ok o =>
          if (findTemplateMatchesL o).isEmpty && (findArgMatchesL o).isEmpty then
            Except.ok o.asString
          else Except.error "UnresolvedToken") = Except.ok out.asString
      rw [hr]
      show (if ((findTemplateMatchesL out).isEmpty && (findArgMatchesL out).isEmpty) = true
          then Except.ok out.asString else Except.error "UnresolvedToken") =
        Except.ok out.asString
      rw [if_pos hb]
    · rw [if_neg hb] at hif
      cases hif

/-- C8 witness: rendering the already fully substituted fixture output
returns it unchanged. -/
theorem render_idempotent_witness :
    render_template fixtureRule fixtureBinding "SELECT g FROM p WHERE x = FEMALE" =
      Except.ok "SELECT g FROM p WHERE x = FEMALE" :=
  render_idempotent fixtureRule fixtureBinding "SELECT g FROM p WHERE x = <ARG-GENDER><0>"
    "SELECT g FROM p WHERE x = FEMALE" (by rfl)

/-- C9: malformed tokens are not matched by the scanner and contribute no
entry and no count: generally, a type with no well-formed occurrence has
no entry, and concretely a non-numeric index or unbalanced brackets leave
the map empty while well-formed tokens elsewhere are unaffected; the
scanner is a total function, so no error is reported at this stage. -/
theorem malformed_tokens_not_matched :
    (∀ (t X : String), indicesOf X (allOccurrences t) = [] →
      alookup X (identify_required_args t) = none) ∧
    identify_required_args "SELECT s FROM t WHERE a = <ARG-STATE><x>" = [] ∧
    identify_required_args "SELECT s WHERE a = <ARG-STATE><1 AND b = <WHO-TEMPLATE><ARG-DRUG>0>" = [] ∧
    identify_required_args "SELECT s FROM t WHERE a = <ARG-STATE><x> AND b = <ARG-GENDER><0>" =
      [("GENDER", 1)] := by
  refine ⟨?_, by decide, by decide, by decide⟩
  intro t X h
  rw [scan_lookup_characterization t X, h]

/-- C9 witness: the non-numeric index token contributes no STATE entry. -/
theorem malformed_tokens_not_matched_witness :
    alookup "STATE" (identify_required_args "SELECT s FROM t WHERE a = <ARG-STATE><x>") = none :=
  malformed_tokens_not_matched.1 "SELECT s FROM t WHERE a = <ARG-STATE><x>" "STATE" (by decide)

/-- C10: the binding dict built for a query has an entry for exactly the
argument types of the scanner's required-argument map: a type present in
the pool map but unreferenced by the template never appears in the
binding, and every required type does. -/
theorem binding_keys_are_required_types (t : String)
    (pools : List (String × List QueryArg)) (X : String) :
    (alookup X (create_args_dict_for_query t pools)).isSome =
      (alookup X (identify_required_args t)).isSome := by
  rw [create_lookup_characterization]
  cases alookup X (identify_required_args t) <;> rfl
